import Mathlib

/-!
# The QuickPizza scenario script (`scripts/http.js`)

The repository holds one k6 scenario: the default export of `scripts/http.js`.
It runs a group of three HTTP steps against `quickpizza.grafana.com`, each
followed by a status check, and then sleeps for one second.

The script is embedded as a program over an explicit virtual-user state: the
calls it makes into the k6 runtime (`group`, `http.request`, `check`, `sleep`)
are operations that append what they did to a trace, and the network is a
parameter that decides the response to every request. The parts of the runtime
that the claims need and the repository does not contain, the executor's log of
network errors and the check report, follow the specification.
-/

namespace QuickPizza

/-! ## Data model -/

/-- The `params` object handed to `http.request`: a header map and a cookie map,
each as the list of its `(key, value)` entries in source order. -/
structure Params where
  headers : List (String × String)
  cookies : List (String × String)
deriving DecidableEq, Repr

/-- One call of `http.request(method, url, body, params)`; a `null` body is `none`. -/
structure Request where
  method : String
  url : String
  body : Option String
  params : Params
deriving DecidableEq, Repr

/-- What `http.request` hands back. When the request fails at transport level the
client does not throw: it returns a response whose `status` is `0` and whose
`error` and `error_code` describe the failure. -/
structure Response where
  status : Nat
  error : String
  error_code : Nat
  body : String
deriving DecidableEq, Repr

/-- Modelled from the spec: a `NetworkError`, the record the HTTP executor keeps
of a request that failed at transport level. The executor is part of the k6
runtime, which the repository does not contain; the spec has it "fail with a
`NetworkError` (connection refused, timeout, DNS failure) distinct from an HTTP
error status", and has the error "logged" while the "run continues to next
step". -/
structure NetworkError where
  request : Request
  error : String
  error_code : Nat
deriving DecidableEq, Repr

/-- Everything one iteration can do that is visible from outside. -/
inductive Event where
  | groupEnter (name : String)
  | groupExit (name : String)
  | request (req : Request)
  | check (name : String) (pass : Bool)
  | sleep (seconds : Nat)
deriving DecidableEq, Repr

/-- The network as seen by one virtual user: the response to the `n`-th request
it issues (counting from `0`), which may depend on the request itself. -/
abbrev Network := Nat → Request → Response

/-- The state of one virtual user: the network it talks to, the trace of what
it has done so far, and the network errors the executor has logged for it. -/
structure VU where
  net : Network
  trace : List Event
  errors : List NetworkError

/-- Scenario code runs in the state of its virtual user. -/
abbrev K6 := StateM VU

/-- The requests of a trace, in the order they were issued. -/
def requestsOf : List Event → List Request
  | [] => []
  | Event.request req :: t => req :: requestsOf t
  | _ :: t => requestsOf t

/-- The check results of a trace, as `(name, pass)`, in the order they were recorded. -/
def checksOf : List Event → List (String × Bool)
  | [] => []
  | Event.check name pass :: t => (name, pass) :: checksOf t
  | _ :: t => checksOf t

/-- The pauses of a trace, in seconds, in order. -/
def sleepsOf : List Event → List Nat
  | [] => []
  | Event.sleep s :: t => s :: sleepsOf t
  | _ :: t => sleepsOf t

/-! ## The k6 operations the script calls -/

/-- The tagged template `http.url`: the script's literals have no substitutions,
so the URL is the literal itself. -/
def http.url (s : String) : String := s

/-- Modelled from the spec: what the HTTP executor, which the repository does
not contain, logs for a request and its response: a `NetworkError` when the
response has no HTTP status (status `0`), and nothing when it has one, whatever
the status is ("an HTTP error status ... is a normal Response with status ≥ 400
— not an error"). -/
def networkErrorOf (req : Request) (resp : Response) : List NetworkError :=
  if resp.status = 0 then [⟨req, resp.error, resp.error_code⟩] else []

/-- The call `http.request(method, url, body, params)`: issues the request and
returns the response of the network; the executor logs a transport failure. -/
def http.request (method url : String) (body : Option String) (params : Params) :
    K6 Response := fun σ =>
  let req : Request := ⟨method, url, body, params⟩
  let resp : Response := σ.net (requestsOf σ.trace).length req
  (resp, { σ with trace := σ.trace ++ [Event.request req],
                  errors := σ.errors ++ networkErrorOf req resp })

/-- The call `check(val, sets)`: evaluates every named predicate of `sets` on
`val`, records each result under its name, and returns whether all passed. It
never throws. -/
def check (val : Response) (sets : List (String × (Response → Bool))) : K6 Bool := fun σ =>
  (sets.all (fun s => s.2 val),
    { σ with trace := σ.trace ++ sets.map (fun s => Event.check s.1 (s.2 val)) })

/-- The call `sleep(t)`: suspends the virtual user for `t` seconds. -/
def sleep (seconds : Nat) : K6 Unit := fun σ =>
  ((), { σ with trace := σ.trace ++ [Event.sleep seconds] })

/-- The call `group(name, fn)`: runs `fn` inside the group `name`. -/
def group {α : Type} (name : String) (fn : K6 α) : K6 α := do
  modify (fun σ => { σ with trace := σ.trace ++ [Event.groupEnter name] })
  let r ← fn
  modify (fun σ => { σ with trace := σ.trace ++ [Event.groupExit name] })
  return r

/-! ## The script -/

/-- The default export of `scripts/http.js`. The variables `params`, `url` and
`resp` are declared once without a value and assigned again in every step; here
the declaration sits at the first assignment and the later ones reassign. -/
def defaultFunction : K6 Unit := do
  group "Default group" (do
    -- Step 1: Get the home page
    let mut params : Params := { headers := [], cookies := [] }
    let mut url := http.url "https://quickpizza.grafana.com/"
    let mut resp ← http.request "GET" url none params
    let _ ← check resp [("status equals 200", fun r => r.status == 200)]
    -- Step 2: Create a pizza
    params := { headers := [("authorization", "Token Gck7WTaMAB9NKlM1")], cookies := [] }
    url := http.url "https://quickpizza.grafana.com/api/pizza"
    resp ← http.request "POST" url
      (some "\x7b\"maxCaloriesPerSlice\":1000,\"mustBeVegetarian\":false,\"excludedIngredients\":[],\"excludedTools\":[],\"maxNumberOfToppings\":5,\"minNumberOfToppings\":2,\"customName\":\"\"\x7d")
      params
    let _ ← check resp [("status equals 200", fun r => r.status == 200)]
    -- Step 3: Rank a pizza
    params := { headers := [], cookies := [] }
    url := http.url "https://quickpizza.grafana.com/api/ratings"
    resp ← http.request "POST" url (some "\x7b\"pizza_id\":24596,\"stars\":5\x7d") params
    let _ ← check resp [("status equals 401", fun r => r.status == 401)])
  sleep 1

/-- One iteration of a virtual user: the state after the default function returns. -/
def iteration (σ : VU) : VU := (defaultFunction σ).2

/-- A virtual user runs the default function again and again: `n` iterations. -/
def runIterations : Nat → VU → VU
  | 0, σ => σ
  | n + 1, σ => runIterations n (iteration σ)

/-- The events one iteration appends to the trace of the state it starts in. -/
def iterationTrace (σ : VU) : List Event := (iteration σ).trace.drop σ.trace.length

/-- A virtual user that has not done anything yet. -/
def VU.fresh (net : Network) : VU := { net := net, trace := [], errors := [] }

/-! ## The script's three requests -/

/-- Step 1: `GET /` without a body, empty headers and cookies. -/
def homeRequest : Request :=
  { method := "GET", url := "https://quickpizza.grafana.com/", body := none,
    params := { headers := [], cookies := [] } }

/-- Step 2: `POST /api/pizza` with the pizza order and the authorization token. -/
def pizzaRequest : Request :=
  { method := "POST", url := "https://quickpizza.grafana.com/api/pizza",
    body := some "\x7b\"maxCaloriesPerSlice\":1000,\"mustBeVegetarian\":false,\"excludedIngredients\":[],\"excludedTools\":[],\"maxNumberOfToppings\":5,\"minNumberOfToppings\":2,\"customName\":\"\"\x7d",
    params := { headers := [("authorization", "Token Gck7WTaMAB9NKlM1")], cookies := [] } }

/-- Step 3: `POST /api/ratings` with the rating, empty headers and cookies. -/
def ratingRequest : Request :=
  { method := "POST", url := "https://quickpizza.grafana.com/api/ratings",
    body := some "\x7b\"pizza_id\":24596,\"stars\":5\x7d",
    params := { headers := [], cookies := [] } }

/-- The events one iteration appends when it starts as the virtual user's
`k`-th request is due: the group with its three steps, then the pause. -/
def iterationEvents (net : Network) (k : Nat) : List Event :=
  [ Event.groupEnter "Default group",
    Event.request homeRequest,
    Event.check "status equals 200" ((net k homeRequest).status == 200),
    Event.request pizzaRequest,
    Event.check "status equals 200" ((net (k + 1) pizzaRequest).status == 200),
    Event.request ratingRequest,
    Event.check "status equals 401" ((net (k + 2) ratingRequest).status == 401),
    Event.groupExit "Default group",
    Event.sleep 1 ]

/-- The request the script issues at step `i` of an iteration (`0`, `1`, `2`). -/
def stepRequest : Nat → Request
  | 0 => homeRequest
  | 1 => pizzaRequest
  | _ => ratingRequest

/-- The response the network gives to step `i` of the iteration that starts in `σ`:
`http.request` asks the network with the number of requests issued so far. -/
def stepResponse (σ : VU) (i : Nat) : Response :=
  σ.net ((requestsOf σ.trace).length + i) (stepRequest i)

/-- The events `n` consecutive iterations append, the first one starting as the
virtual user's `k`-th request is due. -/
def runEvents (net : Network) (k : Nat) : Nat → List Event
  | 0 => []
  | n + 1 => iterationEvents net k ++ runEvents net (k + 3) n

/-- How many passes a list of check results holds for the check `name`. -/
def passCount (name : String) (cs : List (String × Bool)) : Nat :=
  cs.countP (fun c => c.1 == name && c.2)

/-- How many fails a list of check results holds for the check `name`. -/
def failCount (name : String) (cs : List (String × Bool)) : Nat :=
  cs.countP (fun c => c.1 == name && !c.2)

/-- A network on which every request fails at transport level: no HTTP status
(`0`) and an error description. -/
def unreachableNet : Network := fun _ _ =>
  { status := 0, error := "dial: connection refused", error_code := 1212, body := "" }

/-- A network whose server answers every request with the HTTP status 500. -/
def brokenServerNet : Network := fun _ _ =>
  { status := 500, error := "", error_code := 1500, body := "Internal Server Error" }

/-- A network on which every step gets the status its check expects. -/
def expectedNet : Network := fun _ req =>
  { status := if req.url = "https://quickpizza.grafana.com/api/ratings" then 401 else 200,
    error := "", error_code := 0, body := "" }

/-- A network whose server accepts everything with status 200, the rating too. -/
def permissiveNet : Network := fun _ _ =>
  { status := 200, error := "", error_code := 0, body := "" }

/-- A network that answers the three steps of every iteration with the statuses
`s1`, `s2`, `s3`. -/
def statusNet (s1 s2 s3 : Nat) : Network := fun n _ =>
  { status := if n % 3 = 0 then s1 else if n % 3 = 1 then s2 else s3,
    error := "", error_code := 0, body := "" }

/-! ## The report -/

/-- Modelled from the spec: one line of the end-of-run summary, a check name with
its pass and fail counters. The report is kept by the k6 runtime, which is not
part of the repository; the spec describes it as "a summary report mapping each
check name to pass/fail counts". -/
structure CheckCounter where
  name : String
  passes : Nat
  fails : Nat
deriving DecidableEq, Repr

/-- Modelled from the spec: the report of a run, which the repository does not
contain: the counters "keyed by check name", one entry per name, in the order the
names were first recorded. -/
abbrev Report := List CheckCounter

/-- Modelled from the spec: the accumulator of the runtime, absent from the
repository: "accumulate pass/fail counters keyed by check name". One check
result increments the pass or the fail counter of the entry of its name, and
opens that entry when the name is new. Each call is one indivisible update. -/
def recordCheck : Report → String × Bool → Report
  | [], c => [⟨c.1, if c.2 then 1 else 0, if c.2 then 0 else 1⟩]
  | e :: rest, c =>
    if e.name = c.1 then
      ⟨e.name, e.passes + (if c.2 then 1 else 0), e.fails + (if c.2 then 0 else 1)⟩ :: rest
    else e :: recordCheck rest c

/-- Modelled from the spec: the report after the check results `cs` have been
recorded, one after the other, starting from the empty report. -/
def reportOf (cs : List (String × Bool)) : Report := cs.foldl recordCheck []

/-- The pass counter the report shows for `name` (`0` when it has no entry). -/
def reportPasses (r : Report) (name : String) : Nat :=
  ((r.find? (fun e => e.name == name)).map CheckCounter.passes).getD 0

/-- The fail counter the report shows for `name` (`0` when it has no entry). -/
def reportFails (r : Report) (name : String) : Nat :=
  ((r.find? (fun e => e.name == name)).map CheckCounter.fails).getD 0

/-- The check results one virtual user records when it runs `v.2` iterations
against the network `v.1`. -/
def vuChecks (v : Network × Nat) : List (String × Bool) :=
  checksOf (runIterations v.2 (VU.fresh v.1)).trace

/-- The number of iterations of a run, all virtual users together. -/
def totalIterations (vus : List (Network × Nat)) : Nat := (vus.map Prod.snd).sum

/-- Every response the virtual user `v` gets while it runs its `v.2` iterations
against `v.1` has the status the check of its step expects: in iteration `j` the
home page (request `3 * j`) and the pizza order (request `3 * j + 1`) get 200 and
the rating (request `3 * j + 2`) gets 401. -/
def AllExpected (v : Network × Nat) : Prop :=
  ∀ j, j < v.2 → (v.1 (3 * j) homeRequest).status = 200
    ∧ (v.1 (3 * j + 1) pizzaRequest).status = 200
    ∧ (v.1 (3 * j + 2) ratingRequest).status = 401

instance (v : Network × Nat) : Decidable (AllExpected v) := by
  unfold AllExpected; infer_instance

/-- The status the check of step `i` expects: 200, 200, 401. -/
def expectedStatus : Nat → Nat
  | 0 => 200
  | 1 => 200
  | _ => 401

/-- The network errors the executor logs during the iteration that starts in `σ`. -/
def iterationErrors (σ : VU) : List NetworkError :=
  (iteration σ).errors.drop σ.errors.length

/-- What the iteration that starts in `σ` records for its step `i`: the network
errors logged for the request of the step, and the result of the step's check. -/
def stepOutcome (σ : VU) (i : Nat) : List NetworkError × Option (String × Bool) :=
  ((iterationErrors σ).filter (fun e => decide (e.request = stepRequest i)),
    (checksOf (iterationTrace σ)).get? i)

/-! ## Helper lemmas -/

theorem requestsOf_append (a b : List Event) :
    requestsOf (a ++ b) = requestsOf a ++ requestsOf b := by
  induction a with
  | nil => rfl
  | cons e t ih => cases e <;> simp [requestsOf, ih]

theorem checksOf_append (a b : List Event) :
    checksOf (a ++ b) = checksOf a ++ checksOf b := by
  induction a with
  | nil => rfl
  | cons e t ih => cases e <;> simp [checksOf, ih]

theorem sleepsOf_append (a b : List Event) :
    sleepsOf (a ++ b) = sleepsOf a ++ sleepsOf b := by
  induction a with
  | nil => rfl
  | cons e t ih => cases e <;> simp [sleepsOf, ih]

theorem iteration_net (σ : VU) : (iteration σ).net = σ.net := rfl

theorem iteration_trace (σ : VU) :
    (iteration σ).trace = σ.trace ++ iterationEvents σ.net (requestsOf σ.trace).length := by
  simp [iteration, defaultFunction, group, http.request, check, sleep, http.url,
    iterationEvents, homeRequest, pizzaRequest, ratingRequest, requestsOf_append, requestsOf,
    bind, StateT.bind, modify, modifyGet, MonadStateOf.modifyGet, StateT.modifyGet, pure,
    StateT.pure, Nat.add_assoc]

theorem iterationTrace_eq (σ : VU) :
    iterationTrace σ = iterationEvents σ.net (requestsOf σ.trace).length := by
  simp [iterationTrace, iteration_trace]

theorem iterationTrace_steps (σ : VU) :
    iterationTrace σ =
      [ Event.groupEnter "Default group",
        Event.request homeRequest,
        Event.check "status equals 200" ((stepResponse σ 0).status == 200),
        Event.request pizzaRequest,
        Event.check "status equals 200" ((stepResponse σ 1).status == 200),
        Event.request ratingRequest,
        Event.check "status equals 401" ((stepResponse σ 2).status == 401),
        Event.groupExit "Default group",
        Event.sleep 1 ] := by
  rw [iterationTrace_eq]; rfl

theorem requestsOf_iterationEvents (net : Network) (k : Nat) :
    requestsOf (iterationEvents net k) = [homeRequest, pizzaRequest, ratingRequest] := rfl

theorem runIterations_net (n : Nat) (σ : VU) : (runIterations n σ).net = σ.net := by
  induction n generalizing σ with
  | zero => rfl
  | succ n ih => rw [runIterations, ih, iteration_net]

theorem runIterations_trace (n : Nat) (σ : VU) :
    (runIterations n σ).trace = σ.trace ++ runEvents σ.net (requestsOf σ.trace).length n := by
  induction n generalizing σ with
  | zero => simp [runIterations, runEvents]
  | succ n ih =>
    rw [runIterations, ih, iteration_net, iteration_trace, requestsOf_append,
      requestsOf_iterationEvents]
    simp [runEvents]

theorem requestsOf_runEvents (net : Network) (k n : Nat) :
    requestsOf (runEvents net k n) =
      (List.replicate n [homeRequest, pizzaRequest, ratingRequest]).flatten := by
  induction n generalizing k with
  | zero => rfl
  | succ n ih =>
    rw [runEvents, requestsOf_append, ih, requestsOf_iterationEvents, List.replicate_succ,
      List.flatten_cons]

theorem runEvents_length (net : Network) (k n : Nat) : (runEvents net k n).length = 9 * n := by
  induction n generalizing k with
  | zero => rfl
  | succ n ih =>
    rw [runEvents, List.length_append, ih]
    simp [iterationEvents]
    omega

theorem runEvents_getElem? (net : Network) (k n i : Nat) (h : i < 9 * n) :
    (runEvents net k n)[i]? = (iterationEvents net (k + 3 * (i / 9)))[i % 9]? := by
  induction n generalizing k i with
  | zero => omega
  | succ n ih =>
    have hlen : (iterationEvents net k).length = 9 := rfl
    rw [runEvents]
    by_cases hi : i < 9
    · rw [List.getElem?_append_left (by omega)]
      have h1 : i / 9 = 0 := by omega
      have h2 : i % 9 = i := by omega
      rw [h1, h2, Nat.mul_zero, Nat.add_zero]
    · rw [List.getElem?_append_right (by omega), hlen, ih (k + 3) (i - 9) (by omega)]
      have h1 : k + 3 + 3 * ((i - 9) / 9) = k + 3 * (i / 9) := by omega
      have h2 : (i - 9) % 9 = i % 9 := by omega
      rw [h1, h2]

theorem iterationEvents_rating_index (net : Network) (c m : Nat) (hm : m < 9)
    (h : (iterationEvents net c)[m]? = some (Event.request ratingRequest)) : m = 5 := by
  have e1 : homeRequest ≠ ratingRequest := by decide
  have e2 : pizzaRequest ≠ ratingRequest := by decide
  interval_cases m <;> simp [iterationEvents] at h <;> first | rfl | exact absurd h e1 | exact absurd h e2

theorem iterationEvents_home_index (net : Network) (c m : Nat) (hm : m < 9)
    (h : (iterationEvents net c)[m]? = some (Event.request homeRequest)) : m = 1 := by
  have e1 : pizzaRequest ≠ homeRequest := by decide
  have e2 : ratingRequest ≠ homeRequest := by decide
  interval_cases m <;> simp [iterationEvents] at h <;> first | rfl | exact absurd h e1 | exact absurd h e2

theorem iterationEvents_sleep_index (net : Network) (c : Nat) :
    (iterationEvents net c)[8]? = some (Event.sleep 1) := rfl

theorem reportPasses_recordCheck (r : Report) (c : String × Bool) (name : String) :
    reportPasses (recordCheck r c) name =
      reportPasses r name + (if c.1 = name ∧ c.2 = true then 1 else 0) := by
  induction r with
  | nil =>
    by_cases h : c.1 = name <;> cases hc : c.2 <;> simp [recordCheck, reportPasses, h, hc]
  | cons e rest ih =>
    unfold reportPasses at ih ⊢
    by_cases h1 : e.name = c.1
    · simp only [recordCheck, if_pos h1, List.find?_cons]
      by_cases h2 : e.name = name
      · have hb : (e.name == name) = true := by simpa using h2
        have h3 : c.1 = name := h1 ▸ h2
        cases hc : c.2 <;> simp [hb, h3]
      · have hb : (e.name == name) = false := by simpa using h2
        have h3 : ¬ c.1 = name := fun h => h2 (h1.trans h)
        simp [hb, h3]
    · simp only [recordCheck, if_neg h1, List.find?_cons]
      by_cases h2 : e.name = name
      · have hb : (e.name == name) = true := by simpa using h2
        have h3 : ¬ c.1 = name := fun h => h1 (h2.trans h.symm)
        simp [hb, h3]
      · have hb : (e.name == name) = false := by simpa using h2
        simp only [hb]
        exact ih

theorem reportFails_recordCheck (r : Report) (c : String × Bool) (name : String) :
    reportFails (recordCheck r c) name =
      reportFails r name + (if c.1 = name ∧ c.2 = false then 1 else 0) := by
  induction r with
  | nil =>
    by_cases h : c.1 = name <;> cases hc : c.2 <;> simp [recordCheck, reportFails, h, hc]
  | cons e rest ih =>
    unfold reportFails at ih ⊢
    by_cases h1 : e.name = c.1
    · simp only [recordCheck, if_pos h1, List.find?_cons]
      by_cases h2 : e.name = name
      · have hb : (e.name == name) = true := by simpa using h2
        have h3 : c.1 = name := h1 ▸ h2
        cases hc : c.2 <;> simp [hb, h3]
      · have hb : (e.name == name) = false := by simpa using h2
        have h3 : ¬ c.1 = name := fun h => h2 (h1.trans h)
        simp [hb, h3]
    · simp only [recordCheck, if_neg h1, List.find?_cons]
      by_cases h2 : e.name = name
      · have hb : (e.name == name) = true := by simpa using h2
        have h3 : ¬ c.1 = name := fun h => h1 (h2.trans h.symm)
        simp [hb, h3]
      · have hb : (e.name == name) = false := by simpa using h2
        simp only [hb]
        exact ih

theorem reportPasses_foldl (cs : List (String × Bool)) (r : Report) (name : String) :
    reportPasses (cs.foldl recordCheck r) name = reportPasses r name + passCount name cs := by
  induction cs generalizing r with
  | nil => simp [passCount]
  | cons c cs ih =>
    rw [List.foldl_cons, ih, reportPasses_recordCheck]
    unfold passCount
    rw [List.countP_cons]
    by_cases h : c.1 = name <;> cases hc : c.2 <;> simp [h, hc]
    omega

theorem reportFails_foldl (cs : List (String × Bool)) (r : Report) (name : String) :
    reportFails (cs.foldl recordCheck r) name = reportFails r name + failCount name cs := by
  induction cs generalizing r with
  | nil => simp [failCount]
  | cons c cs ih =>
    rw [List.foldl_cons, ih, reportFails_recordCheck]
    unfold failCount
    rw [List.countP_cons]
    by_cases h : c.1 = name <;> cases hc : c.2 <;> simp [h, hc]
    omega

theorem reportPasses_reportOf (cs : List (String × Bool)) (name : String) :
    reportPasses (reportOf cs) name = passCount name cs := by
  rw [reportOf, reportPasses_foldl]; simp [reportPasses]

theorem reportFails_reportOf (cs : List (String × Bool)) (name : String) :
    reportFails (reportOf cs) name = failCount name cs := by
  rw [reportOf, reportFails_foldl]; simp [reportFails]

theorem names_recordCheck (r : Report) (c : String × Bool) :
    (recordCheck r c).map CheckCounter.name =
      if c.1 ∈ r.map CheckCounter.name then r.map CheckCounter.name
      else r.map CheckCounter.name ++ [c.1] := by
  induction r with
  | nil => simp [recordCheck]
  | cons e rest ih =>
    by_cases h1 : e.name = c.1
    · simp [recordCheck, h1]
    · have h2 : ¬ c.1 = e.name := fun h => h1 h.symm
      simp only [recordCheck, if_neg h1, List.map_cons, ih, List.mem_cons, h2, false_or]
      by_cases h3 : c.1 ∈ rest.map CheckCounter.name
      · simp only [if_pos h3]
      · simp only [if_neg h3, List.cons_append]

theorem names_foldl_nodup (cs : List (String × Bool)) (r : Report)
    (h : (r.map CheckCounter.name).Nodup) :
    ((cs.foldl recordCheck r).map CheckCounter.name).Nodup := by
  induction cs generalizing r with
  | nil => exact h
  | cons c cs ih =>
    rw [List.foldl_cons]
    apply ih
    rw [names_recordCheck]
    by_cases h3 : c.1 ∈ r.map CheckCounter.name
    · rw [if_pos h3]; exact h
    · rw [if_neg h3]
      exact List.Nodup.append h (List.nodup_singleton _) (by simpa using h3)

theorem names_foldl_mem (cs : List (String × Bool)) (r : Report) (name : String) :
    name ∈ (cs.foldl recordCheck r).map CheckCounter.name ↔
      name ∈ r.map CheckCounter.name ∨ name ∈ cs.map Prod.fst := by
  induction cs generalizing r with
  | nil => simp
  | cons c cs ih =>
    rw [List.foldl_cons, ih, names_recordCheck]
    by_cases h3 : c.1 ∈ r.map CheckCounter.name
    · rw [if_pos h3, List.map_cons, List.mem_cons]
      constructor
      · rintro (h | h)
        · exact Or.inl h
        · exact Or.inr (Or.inr h)
      · rintro (h | h | h)
        · exact Or.inl h
        · exact Or.inl (h ▸ h3)
        · exact Or.inr h
    · rw [if_neg h3, List.map_cons, List.mem_cons, List.mem_append, List.mem_singleton]
      tauto

theorem checksOf_iterationEvents (net : Network) (k : Nat) :
    checksOf (iterationEvents net k) =
      [ ("status equals 200", (net k homeRequest).status == 200),
        ("status equals 200", (net (k + 1) pizzaRequest).status == 200),
        ("status equals 401", (net (k + 2) ratingRequest).status == 401) ] := rfl

theorem checksOf_runEvents_names (net : Network) (k n : Nat) :
    (checksOf (runEvents net k n)).map Prod.fst =
      (List.replicate n ["status equals 200", "status equals 200", "status equals 401"]).flatten := by
  induction n generalizing k with
  | zero => rfl
  | succ n ih =>
    rw [runEvents, checksOf_append, List.map_append, ih, checksOf_iterationEvents,
      List.replicate_succ, List.flatten_cons]
    rfl

theorem checksOf_runEvents_expected (net : Network) (k n : Nat)
    (h : ∀ j, j < n → (net (k + 3 * j) homeRequest).status = 200
      ∧ (net (k + 3 * j + 1) pizzaRequest).status = 200
      ∧ (net (k + 3 * j + 2) ratingRequest).status = 401) :
    checksOf (runEvents net k n) =
      (List.replicate n [("status equals 200", true), ("status equals 200", true),
        ("status equals 401", true)]).flatten := by
  induction n generalizing k with
  | zero => rfl
  | succ n ih =>
    have h0 := h 0 (Nat.succ_pos n)
    simp only [Nat.mul_zero, Nat.add_zero] at h0
    have hrest : ∀ j, j < n → (net (k + 3 + 3 * j) homeRequest).status = 200
        ∧ (net (k + 3 + 3 * j + 1) pizzaRequest).status = 200
        ∧ (net (k + 3 + 3 * j + 2) ratingRequest).status = 401 := by
      intro j hj
      have hj1 := h (j + 1) (Nat.succ_lt_succ hj)
      have e : k + 3 * (j + 1) = k + 3 + 3 * j := by omega
      rw [e] at hj1
      exact hj1
    rw [runEvents, checksOf_append, ih (k + 3) hrest, checksOf_iterationEvents,
      List.replicate_succ, List.flatten_cons, h0.1, h0.2.1, h0.2.2]
    rfl

theorem vuChecks_expected (v : Network × Nat) (h : AllExpected v) :
    vuChecks v =
      (List.replicate v.2 [("status equals 200", true), ("status equals 200", true),
        ("status equals 401", true)]).flatten := by
  rw [vuChecks, runIterations_trace]
  apply checksOf_runEvents_expected
  intro j hj
  have := h j hj
  simpa [VU.fresh, requestsOf] using this

theorem vuChecks_eq (v : Network × Nat) : vuChecks v = checksOf (runEvents v.1 0 v.2) := by
  rw [vuChecks, runIterations_trace]; rfl

theorem passCount_add_failCount (name : String) (cs : List (String × Bool)) :
    passCount name cs + failCount name cs = (cs.map Prod.fst).count name := by
  induction cs with
  | nil => rfl
  | cons c cs ih =>
    unfold passCount failCount at ih ⊢
    rw [List.countP_cons, List.countP_cons, List.map_cons, List.count_cons, ← ih]
    by_cases h : c.1 = name <;> cases hc : c.2 <;> simp [h, hc] <;> omega

theorem count_flatten_replicate (x : String) (l : List String) (n : Nat) :
    (List.replicate n l).flatten.count x = n * l.count x := by
  induction n with
  | zero => simp
  | succ n ih =>
    rw [List.replicate_succ, List.flatten_cons, List.count_append, ih]
    rw [Nat.add_mul, Nat.one_mul, Nat.add_comm]

theorem countP_flatten_replicate (q : String × Bool → Bool) (l : List (String × Bool))
    (n : Nat) : (List.replicate n l).flatten.countP q = n * l.countP q := by
  induction n with
  | zero => simp
  | succ n ih =>
    rw [List.replicate_succ, List.flatten_cons, List.countP_append, ih]
    rw [Nat.add_mul, Nat.one_mul, Nat.add_comm]

theorem count_names_run (vus : List (Network × Nat)) (x : String) :
    ((vus.flatMap vuChecks).map Prod.fst).count x =
      totalIterations vus *
        ["status equals 200", "status equals 200", "status equals 401"].count x := by
  induction vus with
  | nil => simp [totalIterations]
  | cons v vus ih =>
    rw [List.flatMap_cons, List.map_append, List.count_append, ih, vuChecks_eq,
      checksOf_runEvents_names, count_flatten_replicate]
    simp only [totalIterations, List.map_cons, List.sum_cons]
    rw [Nat.add_mul]

theorem countP_run_expected (vus : List (Network × Nat)) (h : ∀ v ∈ vus, AllExpected v)
    (q : String × Bool → Bool) :
    (vus.flatMap vuChecks).countP q =
      totalIterations vus *
        [("status equals 200", true), ("status equals 200", true),
          ("status equals 401", true)].countP q := by
  induction vus with
  | nil => simp [totalIterations]
  | cons v vus ih =>
    rw [List.flatMap_cons, List.countP_append, ih (fun w hw => h w (List.mem_cons_of_mem _ hw)),
      vuChecks_expected v (h v (List.mem_cons_self _ _)), countP_flatten_replicate]
    simp only [totalIterations, List.map_cons, List.sum_cons]
    rw [Nat.add_mul]

theorem iteration_errors (σ : VU) :
    (iteration σ).errors = σ.errors ++ (networkErrorOf homeRequest (stepResponse σ 0)
      ++ networkErrorOf pizzaRequest (stepResponse σ 1)
      ++ networkErrorOf ratingRequest (stepResponse σ 2)) := by
  simp [iteration, defaultFunction, group, http.request, check, sleep, http.url,
    stepResponse, stepRequest, homeRequest, pizzaRequest, ratingRequest, requestsOf_append,
    requestsOf, bind, StateT.bind, modify, modifyGet, MonadStateOf.modifyGet,
    StateT.modifyGet, pure, StateT.pure, Nat.add_assoc]

theorem iterationErrors_eq (σ : VU) :
    iterationErrors σ = networkErrorOf homeRequest (stepResponse σ 0)
      ++ networkErrorOf pizzaRequest (stepResponse σ 1)
      ++ networkErrorOf ratingRequest (stepResponse σ 2) := by
  simp [iterationErrors, iteration_errors]

theorem filter_networkErrorOf (req req' : Request) (resp : Response) :
    (networkErrorOf req resp).filter (fun e => decide (e.request = req')) =
      if req = req' then networkErrorOf req resp else [] := by
  unfold networkErrorOf
  by_cases h : resp.status = 0 <;> by_cases h' : req = req' <;> simp [h, h']

theorem stepOutcome_errors (σ : VU) (i : Nat) (hi : i < 3) :
    (stepOutcome σ i).1 = networkErrorOf (stepRequest i) (stepResponse σ i) := by
  have a1 : homeRequest ≠ pizzaRequest := by decide
  have a2 : homeRequest ≠ ratingRequest := by decide
  have a3 : pizzaRequest ≠ ratingRequest := by decide
  have : i = 0 ∨ i = 1 ∨ i = 2 := by omega
  rcases this with rfl | rfl | rfl <;>
    simp [stepOutcome, iterationErrors_eq, List.filter_append, filter_networkErrorOf,
      stepRequest, a1, a2, a3, a1.symm, a2.symm, a3.symm]

/-! ## One iteration -/

/-- C1: whatever the network answers, one iteration issues exactly three requests,
in this order: `GET /` without a body, `POST /api/pizza` with the pizza order,
`POST /api/ratings` with the rating. -/
theorem default_issues_three_requests_in_order (σ : VU) :
    (requestsOf (iterationTrace σ)).map (fun r => (r.method, r.url, r.body)) =
      [ ("GET", "https://quickpizza.grafana.com/", none),
        ("POST", "https://quickpizza.grafana.com/api/pizza",
          some "\x7b\"maxCaloriesPerSlice\":1000,\"mustBeVegetarian\":false,\"excludedIngredients\":[],\"excludedTools\":[],\"maxNumberOfToppings\":5,\"minNumberOfToppings\":2,\"customName\":\"\"\x7d"),
        ("POST", "https://quickpizza.grafana.com/api/ratings",
          some "\x7b\"pizza_id\":24596,\"stars\":5\x7d") ] := by
  rw [iterationTrace_steps]; rfl

/-- C2: whatever the three statuses are, and so whichever checks fail, one
iteration issues all three requests, records exactly three check results (one
per step, in step order) and ends in the pause. -/
theorem failing_check_never_stops_the_group (σ : VU) :
    requestsOf (iterationTrace σ) = [homeRequest, pizzaRequest, ratingRequest]
    ∧ (checksOf (iterationTrace σ)).length = 3
    ∧ (checksOf (iterationTrace σ)).map Prod.fst =
        ["status equals 200", "status equals 200", "status equals 401"]
    ∧ (iterationTrace σ).getLast? = some (Event.sleep 1)
    ∧ (∃ front, iterationTrace σ = front ++ [Event.sleep 1]
        ∧ (requestsOf front).length = 3 ∧ (checksOf front).length = 3) := by
  rw [iterationTrace_steps]
  exact ⟨rfl, rfl, rfl, rfl,
    ⟨(iterationEvents σ.net (requestsOf σ.trace).length).take 8, rfl, rfl, rfl⟩⟩

/-- C3: the check of step 1 and the check of step 2 are both recorded under the
name "status equals 200", each as a pass exactly when the status of its own
response is 200: one pass and no fail for a 200, no pass and one fail otherwise
(for a 401, say). -/
theorem status_equals_200_check (σ : VU) :
    (checksOf (iterationTrace σ)).get? 0 =
        some ("status equals 200", (stepResponse σ 0).status == 200)
    ∧ (checksOf (iterationTrace σ)).get? 1 =
        some ("status equals 200", (stepResponse σ 1).status == 200)
    ∧ passCount "status equals 200" ((checksOf (iterationTrace σ)).take 1) =
        (if (stepResponse σ 0).status = 200 then 1 else 0)
    ∧ failCount "status equals 200" ((checksOf (iterationTrace σ)).take 1) =
        (if (stepResponse σ 0).status = 200 then 0 else 1)
    ∧ passCount "status equals 200" (((checksOf (iterationTrace σ)).drop 1).take 1) =
        (if (stepResponse σ 1).status = 200 then 1 else 0)
    ∧ failCount "status equals 200" (((checksOf (iterationTrace σ)).drop 1).take 1) =
        (if (stepResponse σ 1).status = 200 then 0 else 1) := by
  rw [iterationTrace_steps]
  refine ⟨?_, ?_, ?_, ?_, ?_, ?_⟩
  · simp [checksOf]
  · simp [checksOf]
  · by_cases h : (stepResponse σ 0).status = 200 <;> simp [checksOf, passCount, h]
  · by_cases h : (stepResponse σ 0).status = 200 <;> simp [checksOf, failCount, h]
  · by_cases h : (stepResponse σ 1).status = 200 <;> simp [checksOf, passCount, h]
  · by_cases h : (stepResponse σ 1).status = 200 <;> simp [checksOf, failCount, h]

/-- C4: the check of step 3 is recorded under the name "status equals 401", as a
pass exactly when the status of the response to the rating request is 401; a
rating that is accepted with status 200 is a failed check. -/
theorem rating_check_expects_401 (σ : VU) :
    (checksOf (iterationTrace σ)).get? 2 =
        some ("status equals 401", (stepResponse σ 2).status == 401)
    ∧ (((checksOf (iterationTrace σ)).get? 2).map Prod.snd = some true
        ↔ (stepResponse σ 2).status = 401)
    ∧ ((stepResponse σ 2).status = 200 →
        (checksOf (iterationTrace σ)).get? 2 = some ("status equals 401", false)) := by
  rw [iterationTrace_steps]
  refine ⟨by simp [checksOf], by simp [checksOf], ?_⟩
  intro h
  simp [checksOf, h]

/-- Witness of C4 on a server that accepts the rating with status 200. -/
theorem rating_check_expects_401_witness :
    (checksOf (iterationTrace (VU.fresh permissiveNet))).get? 2 =
      some ("status equals 401", false) :=
  (rating_check_expects_401 (VU.fresh permissiveNet)).2.2 rfl

/-- C9: only the request of step 2 carries an `authorization` header; the
requests of steps 1 and 3 have an empty header map, and all three have an empty
cookie map. -/
theorem each_request_has_its_own_params (σ : VU) :
    (requestsOf (iterationTrace σ)).map (fun r => (r.method, r.url, r.params.headers, r.params.cookies)) =
      [ ("GET", "https://quickpizza.grafana.com/", [], []),
        ("POST", "https://quickpizza.grafana.com/api/pizza",
          [("authorization", "Token Gck7WTaMAB9NKlM1")], []),
        ("POST", "https://quickpizza.grafana.com/api/ratings", [], []) ] := by
  rw [iterationTrace_steps]; rfl

/-- C10: the three recorded results are, in order, whether the status of the
step-1 response is 200, whether the status of the step-2 response is 200 and
whether the status of the step-3 response is 401; all three pass exactly on the
statuses (200, 200, 401). -/
theorem each_check_sees_its_own_response (σ : VU) :
    checksOf (iterationTrace σ) =
      [ ("status equals 200", (stepResponse σ 0).status == 200),
        ("status equals 200", (stepResponse σ 1).status == 200),
        ("status equals 401", (stepResponse σ 2).status == 401) ]
    ∧ ((checksOf (iterationTrace σ)).map Prod.snd = [true, true, true] ↔
        ((stepResponse σ 0).status, (stepResponse σ 1).status, (stepResponse σ 2).status)
          = (200, 200, 401))
    ∧ ∀ s1 s2 s3 : Nat, checksOf (iterationTrace (VU.fresh (statusNet s1 s2 s3))) =
        [ ("status equals 200", s1 == 200), ("status equals 200", s2 == 200),
          ("status equals 401", s3 == 401) ] := by
  refine ⟨?_, ?_, ?_⟩
  · rw [iterationTrace_steps]; rfl
  · rw [iterationTrace_steps]; simp [checksOf]
  · intro s1 s2 s3
    rw [iterationTrace_steps]; rfl

/-- C5: a request failure is surfaced apart from a check failure. When the
request of step `i` fails at transport level (status 0) in one iteration and
gets an HTTP response with a non-matching status in another, what the two
iterations record for the step differs: both record the same failed check, and
the first alone has a network error logged for the step's request, with the
error of the response. -/
theorem network_error_is_surfaced_separately (σ σ' : VU) (i : Nat) (hi : i < 3)
    (h0 : (stepResponse σ i).status = 0)
    (h1 : (stepResponse σ' i).status ≠ 0)
    (h2 : (stepResponse σ' i).status ≠ expectedStatus i) :
    stepOutcome σ i ≠ stepOutcome σ' i
    ∧ (stepOutcome σ i).1 =
        [⟨stepRequest i, (stepResponse σ i).error, (stepResponse σ i).error_code⟩]
    ∧ (stepOutcome σ' i).1 = []
    ∧ (stepOutcome σ i).2 = (stepOutcome σ' i).2
    ∧ ((stepOutcome σ i).2).map Prod.snd = some false := by
  have e1 := stepOutcome_errors σ i hi
  have e2 := stepOutcome_errors σ' i hi
  rw [networkErrorOf, if_pos h0] at e1
  rw [networkErrorOf, if_neg h1] at e2
  refine ⟨?_, e1, e2, ?_, ?_⟩
  · intro h
    have := congrArg Prod.fst h
    rw [e1, e2] at this
    exact List.cons_ne_nil _ _ this
  · have : i = 0 ∨ i = 1 ∨ i = 2 := by omega
    rcases this with rfl | rfl | rfl <;>
      simp [stepOutcome, iterationTrace_steps, checksOf, expectedStatus, h0] at h2 ⊢ <;>
      exact h2
  · have : i = 0 ∨ i = 1 ∨ i = 2 := by omega
    rcases this with rfl | rfl | rfl <;>
      simp [stepOutcome, iterationTrace_steps, checksOf, h0]

/-- Witness of C5: the home-page request is refused on one network and answered
with status 500 on another. -/
theorem network_error_is_surfaced_separately_witness :
    stepOutcome (VU.fresh unreachableNet) 0 ≠ stepOutcome (VU.fresh brokenServerNet) 0
    ∧ (stepOutcome (VU.fresh unreachableNet) 0).1 =
        [⟨stepRequest 0, (stepResponse (VU.fresh unreachableNet) 0).error,
          (stepResponse (VU.fresh unreachableNet) 0).error_code⟩]
    ∧ (stepOutcome (VU.fresh brokenServerNet) 0).1 = []
    ∧ (stepOutcome (VU.fresh unreachableNet) 0).2 = (stepOutcome (VU.fresh brokenServerNet) 0).2
    ∧ ((stepOutcome (VU.fresh unreachableNet) 0).2).map Prod.snd = some false :=
  network_error_is_surfaced_separately (VU.fresh unreachableNet) (VU.fresh brokenServerNet) 0
    (by decide) (by decide) (by decide) (by decide)

/-! ## Several iterations -/

/-- C6: the requests an iteration issues and the names of the checks it records
are the same from every state, whatever was answered before; two iterations that
get the same three responses record the same events, in particular the second of
two consecutive runs of the body; and `n` iterations issue the same three
requests `n` times over. -/
theorem iterations_are_stateless (σ σ' : VU) :
    requestsOf (iterationTrace σ) = requestsOf (iterationTrace σ')
    ∧ (checksOf (iterationTrace σ)).map Prod.fst = (checksOf (iterationTrace σ')).map Prod.fst
    ∧ ((∀ i, i < 3 → stepResponse σ i = stepResponse σ' i) →
        iterationTrace σ = iterationTrace σ')
    ∧ ((∀ i, i < 3 → stepResponse (iteration σ) i = stepResponse σ i) →
        iterationTrace (iteration σ) = iterationTrace σ)
    ∧ ∀ n, requestsOf ((runIterations n σ).trace.drop σ.trace.length) =
        (List.replicate n [homeRequest, pizzaRequest, ratingRequest]).flatten := by
  refine ⟨?_, ?_, ?_, ?_, ?_⟩
  · rw [iterationTrace_steps, iterationTrace_steps]; rfl
  · rw [iterationTrace_steps, iterationTrace_steps]; rfl
  · intro h
    rw [iterationTrace_steps, iterationTrace_steps, h 0 (by omega), h 1 (by omega),
      h 2 (by omega)]
  · intro h
    rw [iterationTrace_steps, iterationTrace_steps, h 0 (by omega), h 1 (by omega),
      h 2 (by omega)]
  · intro n
    rw [runIterations_trace, List.drop_left, requestsOf_runEvents]

/-- Witness of C6: the body run twice against a server that always answers the same. -/
theorem iterations_are_stateless_witness :
    iterationTrace (iteration (VU.fresh expectedNet)) = iterationTrace (VU.fresh expectedNet) :=
  (iterations_are_stateless (VU.fresh expectedNet) (VU.fresh expectedNet)).2.2.2.1
    (by intro i _; rfl)

/-- C7: an iteration pauses exactly once, for 1 second, as its last event, after
the three requests and the three checks of the group; and in the trace of any
number of iterations of one virtual user there is a 1-second pause between a
rating request and any later home-page request. -/
theorem one_pause_ends_each_iteration :
    (∀ σ : VU, sleepsOf (iterationTrace σ) = [1]
      ∧ (iterationTrace σ).getLast? = some (Event.sleep 1)
      ∧ ∃ front, iterationTrace σ = front ++ [Event.sleep 1]
          ∧ requestsOf front = [homeRequest, pizzaRequest, ratingRequest]
          ∧ (checksOf front).length = 3 ∧ sleepsOf front = [])
    ∧ ∀ (n : Nat) (net : Network) (i j : Nat), i < j →
        (runIterations n (VU.fresh net)).trace[i]? = some (Event.request ratingRequest) →
        (runIterations n (VU.fresh net)).trace[j]? = some (Event.request homeRequest) →
        ∃ k, i < k ∧ k < j ∧ (runIterations n (VU.fresh net)).trace[k]? = some (Event.sleep 1) := by
  constructor
  · intro σ
    rw [iterationTrace_steps]
    exact ⟨rfl, rfl, (iterationEvents σ.net (requestsOf σ.trace).length).take 8,
      rfl, rfl, rfl, rfl⟩
  · intro n net i j hij hi hj
    have ht : (runIterations n (VU.fresh net)).trace = runEvents net 0 n := by
      rw [runIterations_trace]; rfl
    rw [ht] at hi hj ⊢
    have hin : i < 9 * n := by
      have := (List.getElem?_eq_some.mp hi).1
      rwa [runEvents_length] at this
    have hjn : j < 9 * n := by
      have := (List.getElem?_eq_some.mp hj).1
      rwa [runEvents_length] at this
    rw [runEvents_getElem? net 0 n i hin] at hi
    rw [runEvents_getElem? net 0 n j hjn] at hj
    have mi := iterationEvents_rating_index net _ (i % 9) (Nat.mod_lt _ (by omega)) hi
    have mj := iterationEvents_home_index net _ (j % 9) (Nat.mod_lt _ (by omega)) hj
    refine ⟨9 * (i / 9) + 8, by omega, by omega, ?_⟩
    rw [runEvents_getElem? net 0 n _ (by omega)]
    have h1 : (9 * (i / 9) + 8) % 9 = 8 := by omega
    rw [h1]
    rfl

/-- Witness of C7: two iterations; the rating request of the first is event 5,
the home-page request of the second is event 10. -/
theorem one_pause_ends_each_iteration_witness :
    ∃ k, 5 < k ∧ k < 10 ∧
      (runIterations 2 (VU.fresh expectedNet)).trace[k]? = some (Event.sleep 1) :=
  one_pause_ends_each_iteration.2 2 expectedNet 5 10 (by decide) rfl rfl

/-! ## The report of a run -/

/-- C8: let the virtual users `vus` run `N` iterations in total and let their
check results reach the report in any order `cs`. Then no update is lost: the
counters of "status equals 200" add up to `2 * N` and those of "status equals
401" to `N`; once an iteration has run the report has exactly two entries, with
these two names; and when every response has the expected status the passes are
`2 * N` and `N` and there is no fail. -/
theorem check_counters_accumulate (vus : List (Network × Nat)) (cs : List (String × Bool))
    (h : cs.Perm (vus.flatMap vuChecks)) :
    reportPasses (reportOf cs) "status equals 200" + reportFails (reportOf cs) "status equals 200"
        = 2 * totalIterations vus
    ∧ reportPasses (reportOf cs) "status equals 401" + reportFails (reportOf cs) "status equals 401"
        = totalIterations vus
    ∧ (0 < totalIterations vus →
        (reportOf cs).length = 2
        ∧ ∀ name, name ∈ (reportOf cs).map CheckCounter.name ↔
            name = "status equals 200" ∨ name = "status equals 401")
    ∧ ((∀ v ∈ vus, AllExpected v) →
        reportPasses (reportOf cs) "status equals 200" = 2 * totalIterations vus
        ∧ reportFails (reportOf cs) "status equals 200" = 0
        ∧ reportPasses (reportOf cs) "status equals 401" = totalIterations vus
        ∧ reportFails (reportOf cs) "status equals 401" = 0) := by
  have hcount : ∀ x, (cs.map Prod.fst).count x =
      totalIterations vus *
        ["status equals 200", "status equals 200", "status equals 401"].count x := by
    intro x
    rw [← count_names_run]
    exact (h.map Prod.fst).count_eq x
  refine ⟨?_, ?_, ?_, ?_⟩
  · rw [reportPasses_reportOf, reportFails_reportOf, passCount_add_failCount, hcount]
    have : ["status equals 200", "status equals 200", "status equals 401"].count
        "status equals 200" = 2 := by decide
    rw [this, Nat.mul_comm]
  · rw [reportPasses_reportOf, reportFails_reportOf, passCount_add_failCount, hcount]
    have : ["status equals 200", "status equals 200", "status equals 401"].count
        "status equals 401" = 1 := by decide
    rw [this, Nat.mul_one]
  · intro hN
    have hmem : ∀ name, name ∈ (reportOf cs).map CheckCounter.name ↔
        name = "status equals 200" ∨ name = "status equals 401" := by
      intro name
      rw [reportOf, names_foldl_mem]
      simp only [List.map_nil, List.not_mem_nil, false_or]
      rw [← List.count_pos_iff, hcount, Nat.mul_pos_iff_of_pos_left hN, List.count_pos_iff]
      simp
    refine ⟨?_, hmem⟩
    have hnodup : ((reportOf cs).map CheckCounter.name).Nodup :=
      names_foldl_nodup cs [] List.nodup_nil
    have hperm : ((reportOf cs).map CheckCounter.name).Perm
        ["status equals 200", "status equals 401"] := by
      rw [List.perm_ext_iff_of_nodup hnodup (by decide)]
      intro a
      rw [hmem a]
      simp
    have := hperm.length_eq
    simpa using this
  · intro hexp
    have hq : ∀ q : String × Bool → Bool, cs.countP q =
        totalIterations vus *
          [("status equals 200", true), ("status equals 200", true),
            ("status equals 401", true)].countP q := by
      intro q
      rw [← countP_run_expected vus hexp q]
      exact h.countP_eq q
    rw [reportPasses_reportOf, reportFails_reportOf, reportPasses_reportOf, reportFails_reportOf]
    unfold passCount failCount
    rw [hq, hq, hq, hq]
    refine ⟨?_, ?_, ?_, ?_⟩
    · have : [("status equals 200", true), ("status equals 200", true),
          ("status equals 401", true)].countP
            (fun c => c.1 == "status equals 200" && c.2) = 2 := by decide
      rw [this, Nat.mul_comm]
    · have : [("status equals 200", true), ("status equals 200", true),
          ("status equals 401", true)].countP
            (fun c => c.1 == "status equals 200" && !c.2) = 0 := by decide
      rw [this, Nat.mul_zero]
    · have : [("status equals 200", true), ("status equals 200", true),
          ("status equals 401", true)].countP
            (fun c => c.1 == "status equals 401" && c.2) = 1 := by decide
      rw [this, Nat.mul_one]
    · have : [("status equals 200", true), ("status equals 200", true),
          ("status equals 401", true)].countP
            (fun c => c.1 == "status equals 401" && !c.2) = 0 := by decide
      rw [this, Nat.mul_zero]

/-- Witness of C8: 10 virtual users with 5 iterations each, every step answered
with the expected status, the results reaching the report in reverse order: 50
iterations, two entries, 100 and 50 passes, no fail. -/
theorem check_counters_accumulate_witness :
    totalIterations (List.replicate 10 (statusNet 200 200 401, 5)) = 50
    ∧ (reportOf ((List.replicate 10 (statusNet 200 200 401, 5)).flatMap vuChecks).reverse).length
        = 2
    ∧ reportPasses (reportOf ((List.replicate 10 (statusNet 200 200 401, 5)).flatMap vuChecks).reverse)
        "status equals 200" = 2 * totalIterations (List.replicate 10 (statusNet 200 200 401, 5))
    ∧ reportFails (reportOf ((List.replicate 10 (statusNet 200 200 401, 5)).flatMap vuChecks).reverse)
        "status equals 200" = 0
    ∧ reportPasses (reportOf ((List.replicate 10 (statusNet 200 200 401, 5)).flatMap vuChecks).reverse)
        "status equals 401" = totalIterations (List.replicate 10 (statusNet 200 200 401, 5))
    ∧ reportFails (reportOf ((List.replicate 10 (statusNet 200 200 401, 5)).flatMap vuChecks).reverse)
        "status equals 401" = 0 :=
  have h := check_counters_accumulate (List.replicate 10 (statusNet 200 200 401, 5))
    ((List.replicate 10 (statusNet 200 200 401, 5)).flatMap vuChecks).reverse
    (List.reverse_perm _)
  have hexp : ∀ v ∈ List.replicate 10 (statusNet 200 200 401, 5), AllExpected v := fun v hv =>
    (List.eq_of_mem_replicate hv) ▸ (by decide)
  ⟨by decide, (h.2.2.1 (by decide)).1, (h.2.2.2 hexp).1, (h.2.2.2 hexp).2.1,
    (h.2.2.2 hexp).2.2.1, (h.2.2.2 hexp).2.2.2⟩

end QuickPizza
